import Mathlib

/-!
# Verification of the go-nist-beacon record pipeline

A shallow embedding of `gonistbeacon.go` (package `beacon`): the record
retrieval/verification pipeline and the seeded generator built on top of it.

Bytes are modelled as `Nat` (< 256 at every producer), timestamps as `Int`
unix seconds, Go `big.Int` as `Int`, Go `int`/`int64` as `Int` with explicit
two's-complement truncation where the code truncates.
-/

set_option maxRecDepth 16000

namespace Beacon

/-! ## Go standard-library primitives used by the code -/

/-- One hex digit, as in Go `encoding/hex` (`0-9`, `a-f`, `A-F`). -/
def hexDigit (c : Char) : Option Nat :=
  if '0' ≤ c ∧ c ≤ '9' then some (c.toNat - '0'.toNat)
  else if 'a' ≤ c ∧ c ≤ 'f' then some (c.toNat - 'a'.toNat + 10)
  else if 'A' ≤ c ∧ c ≤ 'F' then some (c.toNat - 'A'.toNat + 10)
  else none

/-- Go `hex.DecodeString` on the character list of the input: consumes pairs of
hex digits; odd length or a non-hex character is an error (`none`). -/
def hexDecode : List Char → Option (List Nat)
  | [] => some []
  | [_] => none
  | a :: b :: rest =>
    match hexDigit a, hexDigit b, hexDecode rest with
    | some hi, some lo, some t => some ((hi * 16 + lo) :: t)
    | _, _, _ => none

/-- UTF-8 encoding of one character (Go strings hold UTF-8 bytes). -/
def utf8Bytes (c : Char) : List Nat :=
  let n := c.toNat
  if n < 0x80 then [n]
  else if n < 0x800 then [0xC0 + n / 64, 0x80 + n % 64]
  else if n < 0x10000 then [0xE0 + n / 4096, 0x80 + n / 64 % 64, 0x80 + n % 64]
  else [0xF0 + n / 0x40000, 0x80 + n / 4096 % 64, 0x80 + n / 64 % 64, 0x80 + n % 64]

/-- The bytes Go `bytes.Buffer.WriteString` appends: the string's UTF-8 bytes. -/
def strBytes (s : String) : List Nat := (s.data.map utf8Bytes).flatten

/-- Go `binary.Write(b, binary.BigEndian, v)` where `v` is a `string`
(`dirtyrecord` fields are strings): `string` is not a fixed-size type, so
`binary.Write` returns an error and appends no bytes.  The caller discards the
error, so the net effect on the buffer is the empty byte list. -/
def binWriteGoString (_s : String) : List Nat := []

/-- Go `strconv.Atoi` digit run: accumulates base-10 digits left to right,
failing on any non-digit. -/
def decValAux : List Char → Nat → Option Nat
  | [], acc => some acc
  | c :: rest, acc =>
    if '0' ≤ c ∧ c ≤ '9' then decValAux rest (acc * 10 + (c.toNat - '0'.toNat))
    else none

/-- A nonempty all-digit run and its base-10 value (`strconv.Atoi` body). -/
def decVal : List Char → Option Nat
  | [] => none
  | cs => decValAux cs 0

/-- Go `strconv.Atoi` syntax: optional single leading `+`/`-`, then a nonempty
run of ASCII digits; yields the signed value (unbounded here; the int64 range
check is applied by `atoi`). -/
def goParseInt (s : String) : Option Int :=
  match s.data with
  | [] => none
  | '+' :: rest => (decVal rest).map (fun n => (n : Int))
  | '-' :: rest => (decVal rest).map (fun n => -(n : Int))
  | cs => (decVal cs).map (fun n => (n : Int))

def int64Min : Int := -(2 ^ 63)
def int64Max : Int := 2 ^ 63 - 1

/-- `atoi` from the source: `strconv.Atoi` with every error (syntax or int64
range) mapped to the sentinel `-1`. -/
def atoi (a : String) : Int :=
  match goParseInt a with
  | some v => if int64Min ≤ v ∧ v ≤ int64Max then v else -1
  | none => -1

/-- Hex digit run for Go `big.Int.SetString(s, 16)`: nonempty, digits `0-9`,
`a-f`, `A-F` (no prefix or underscores when an explicit base is given). -/
def hexValAux : List Char → Nat → Option Nat
  | [], acc => some acc
  | c :: rest, acc =>
    match hexDigit c with
    | some d => hexValAux rest (acc * 16 + d)
    | none => none

def hexVal : List Char → Option Nat
  | [] => none
  | cs => hexValAux cs 0

/-- Go `big.Int.SetString(s, 16)` syntax: optional sign then a nonempty hex
digit run; `none` when `ok` would be `false`. -/
def goParseHex16 (s : String) : Option Int :=
  match s.data with
  | [] => none
  | '+' :: rest => (hexVal rest).map (fun n => (n : Int))
  | '-' :: rest => (hexVal rest).map (fun n => -(n : Int))
  | cs => (hexVal cs).map (fun n => (n : Int))

/-- `setString` from the source, specialised to base 16 as every call site
uses: the parsed big integer, or the sentinel `-1` when `SetString` fails. -/
def setString16 (s : String) : Int :=
  match goParseHex16 s with
  | some v => v
  | none => -1

/-- Two's-complement truncation to 64 bits: what Go `big.Int.Int64` computes
(the low 64 bits read as a signed word). -/
def toInt64 (x : Int) : Int := (x + 2 ^ 63) % 2 ^ 64 - 2 ^ 63

/-- Go `big.Int.Rsh(x, n)`: arithmetic right shift, i.e. floor division by
`2^n`. -/
def goRsh (x : Int) (n : Nat) : Int := Int.fdiv x (2 ^ n)

/-! ## Data model -/

/-- `Record`, the verified typed record.  `TimeStamp` is kept as unix seconds
(`time.Unix(v, 0).Unix() = v`); big integers are `Int`. -/
structure Record where
  Version : String
  Frequency : Int
  TimeStamp : Int
  SeedValue : Int
  PreviousOutputValue : Int
  SignatureValue : Int
  OutputValue : Int
deriving DecidableEq, Repr

/-- `dirtyrecord`: the untrusted XML-decoded record, all fields strings
(the `xml.Name` tag field carries no data and is omitted). -/
structure DirtyRecord where
  Version : String
  Frequency : String
  TimeStamp : String
  SeedValue : String
  PreviousOutputValue : String
  SignatureValue : String
  OutputValue : String
  StatusCode : String
deriving DecidableEq, Repr

/-- The `Record{}` zero value returned alongside every error.  Go's zero
`time.Time` has unix representation `-62135596800`. -/
def zeroRecord : Record :=
  { Version := "", Frequency := 0, TimeStamp := -62135596800, SeedValue := 0,
    PreviousOutputValue := 0, SignatureValue := 0, OutputValue := 0 }

/-- The normalization step of `getRecord`: build the typed `Record` from the
`dirtyrecord` via `atoi` and `setString(_, 16)`. -/
def normalizeRecord (d : DirtyRecord) : Record :=
  { Version := d.Version
    Frequency := atoi d.Frequency
    TimeStamp := atoi d.TimeStamp
    SeedValue := setString16 d.SeedValue
    PreviousOutputValue := setString16 d.PreviousOutputValue
    SignatureValue := setString16 d.SignatureValue
    OutputValue := setString16 d.OutputValue }

/-! ## The signature byte-swap loop of `VerificationData` -/

/-- One iteration body
`signature[i], signature[sigLimit-i] = signature[sigLimit-i], signature[i]`:
Go evaluates the right-hand sides first, so both writes use the old values;
an index outside `[0, len)` is a runtime panic (`none`). -/
def swapAt (l : List Nat) (i j : Int) : Option (List Nat) :=
  if 0 ≤ i ∧ i < (l.length : Int) ∧ 0 ≤ j ∧ j < (l.length : Int) then
    some ((l.set i.toNat (l.getD j.toNat 0)).set j.toNat (l.getD i.toNat 0))
  else none

/-- The loop `for i := 0; i <= sigLimit/2; i++`, unrolled with an explicit
iteration count: `k` iterations remain and `i` is the loop counter. -/
def swapRun (lim : Int) : Nat → Int → List Nat → Option (List Nat)
  | 0, _, l => some l
  | k + 1, i, l =>
    match swapAt l i (lim - i) with
    | some l' => swapRun lim k (i + 1) l'
    | none => none

/-- The whole in-place reversal loop of `VerificationData`:
`sigLimit := len(signature) - 1`, iterations `i = 0 .. sigLimit/2` with Go's
truncated (`T`-) integer division, so an empty buffer still runs one
iteration (`(-1)/2 = 0` in Go). -/
def sigSwap (sig : List Nat) : Option (List Nat) :=
  let lim : Int := (sig.length : Int) - 1
  swapRun lim (Int.tdiv lim 2 + 1).toNat 0 sig

/-! ## `VerificationData` -/

/-- How a run of `dirtyrecord.VerificationData` can fail to return normally:
a hex-decode error (returned as `err`), or a runtime panic in the swap loop. -/
inductive VDErr where
  | hexErr
  | panicked
deriving DecidableEq, Repr

/-- `dirtyrecord.VerificationData`, step by step in source order: decode the
signature hex, reverse it in place, then build the payload buffer — version
string bytes, `binary.Write` of the `Frequency` string (appends nothing, see
`binWriteGoString`), `binary.Write` of the `TimeStamp` string (ditto), the
decoded seed bytes, the decoded previous-output bytes, and `binary.Write` of
the `StatusCode` string (ditto).  Returns `(signed payload, signature)`. -/
def verificationData (d : DirtyRecord) : Except VDErr (List Nat × List Nat) :=
  match hexDecode d.SignatureValue.data with
  | none => .error .hexErr
  | some sig0 =>
    match sigSwap sig0 with
    | none => .error .panicked
    | some sig =>
      match hexDecode d.SeedValue.data with
      | none => .error .hexErr
      | some seed =>
        match hexDecode d.PreviousOutputValue.data with
        | none => .error .hexErr
        | some prev =>
          .ok (strBytes d.Version ++ binWriteGoString d.Frequency ++
                binWriteGoString d.TimeStamp ++ seed ++ prev ++
                binWriteGoString d.StatusCode, sig)

/-! ## `getRecord` and the five public lookups -/

/-- Outcome of a `getRecord` call: a record with `nil` error, the zero record
with an error message, or a propagating panic from the swap loop. -/
inductive GetResult where
  | success (r : Record)
  | failure (r : Record) (msg : String)
  | panicked
deriving DecidableEq, Repr

/-- The deterministic part of `getRecord` after the HTTP body has been
unmarshalled into a `dirtyrecord`.  `validate` stands for
`ValidateSignature(beaconCertificate(), data, sig)` (RSA/SHA-512 against the
embedded certificate — crypto kept abstract), `now` for
`time.Now().Unix()`. -/
def getRecordPipeline (validate : List Nat → List Nat → Bool) (now : Int)
    (d : DirtyRecord) : GetResult :=
  let r0 := normalizeRecord d
  match verificationData d with
  | .error .panicked => .panicked
  | .error .hexErr => .failure zeroRecord "Unable to extract verification data"
  | .ok (data, sig) =>
    if validate data sig then
      if now - r0.TimeStamp > 60 then .failure zeroRecord "Beacon is stale"
      else .success r0
    else .failure zeroRecord "Unable to validate beacon signature"

/-- `getRecord(url)` with the transport and XML decode abstracted into
`resp : String → Except String DirtyRecord` (an `Except.error` covers the
HTTP-get, body-read and unmarshal failure paths, which each return
`Record{}` with a message). -/
def getRecord (resp : String → Except String DirtyRecord)
    (validate : List Nat → List Nat → Bool) (now : Int) (url : String) :
    GetResult :=
  match resp url with
  | .error msg => .failure zeroRecord msg
  | .ok d => getRecordPipeline validate now d

def lastRecordURL : String := "https://beacon.nist.gov/rest/record/last"
def currentRecordURL (t : Int) : String :=
  "https://beacon.nist.gov/rest/record/" ++ toString t
def previousRecordURL (t : Int) : String :=
  "https://beacon.nist.gov/rest/record/previous/" ++ toString t
def nextRecordURL (t : Int) : String :=
  "https://beacon.nist.gov/rest/record/next/" ++ toString t
def startChainRecordURL (t : Int) : String :=
  "https://beacon.nist.gov/rest/record/start-chain/" ++ toString t

/-- `LastRecord()`. -/
def lastRecord (resp : String → Except String DirtyRecord)
    (validate : List Nat → List Nat → Bool) (now : Int) : GetResult :=
  getRecord resp validate now lastRecordURL

/-- `CurrentRecord(t)` (`t` already as unix seconds;
`strconv.FormatInt(t, 10)` is decimal `toString`). -/
def currentRecord (resp : String → Except String DirtyRecord)
    (validate : List Nat → List Nat → Bool) (now t : Int) : GetResult :=
  getRecord resp validate now (currentRecordURL t)

/-- `PreviousRecord(t)`. -/
def previousRecord (resp : String → Except String DirtyRecord)
    (validate : List Nat → List Nat → Bool) (now t : Int) : GetResult :=
  getRecord resp validate now (previousRecordURL t)

/-- `NextRecord(t)`. -/
def nextRecord (resp : String → Except String DirtyRecord)
    (validate : List Nat → List Nat → Bool) (now t : Int) : GetResult :=
  getRecord resp validate now (nextRecordURL t)

/-- `StartChainRecord(t)`. -/
def startChainRecord (resp : String → Except String DirtyRecord)
    (validate : List Nat → List Nat → Bool) (now t : Int) : GetResult :=
  getRecord resp validate now (startChainRecordURL t)

/-! ## The seeded generator `Rand`

`math/rand`'s engine is deterministic: `rand.New(rand.NewSource(n))` followed
by `k` calls of `Int()` yields a value that is a pure function of `(n, k)`.
We model the engine state by the pair (current seed, values consumed) and keep
the engine's output function abstract as a parameter
`prng : Int → Nat → Int`. -/

/-- `Rand`: the auto-update flag, the timestamp of the seeding record, and
the engine state (`seed` = argument of the last `rand.NewSource`, `consumed` =
number of `Int()` values drawn since then). -/
structure Rand where
  update : Bool
  updateTime : Int
  seed : Int
  consumed : Nat
deriving DecidableEq, Repr

/-- `Rand.SetSeed(n)`: replaces the engine by `rand.New(rand.NewSource(n))`
and sets `update = false`. -/
def setSeed (n : Int) (r : Rand) : Rand :=
  { update := false, updateTime := r.updateTime, seed := n, consumed := 0 }

/-- The engine seed `NewRand` derives from a record:
`i.Rsh(&r.SeedValue, 448).Int64()`. -/
def seedOfRecord (r : Record) : Int := toInt64 (goRsh r.SeedValue 448)

/-- `NewRand(r)`: `new(Rand)` (zero value: `update = false`, `updateTime` the
zero time) followed by `SetSeed(Rsh(SeedValue, 448).Int64())`. -/
def newRand (r : Record) : Rand :=
  setSeed (seedOfRecord r)
    { update := false, updateTime := -62135596800, seed := 0, consumed := 0 }

/-- `NewUpdatedRand()` after a successful `LastRecord()` returning `rec`:
`NewRand(rec)` then `update = true`, `updateTime = rec.TimeStamp`. -/
def newUpdatedRand (rec : Record) : Rand :=
  { newRand rec with update := true, updateTime := rec.TimeStamp }

/-- One `Rand.Int()` call.  `prng s k` is the `k`-th output of a fresh engine
seeded with `s`; `fetchRes` is what `LastRecord()` would return if called now
(`now`, unix seconds; `time.Now().After(t.Add(time.Minute))` is the strict
comparison `now > t + 60`).  Returns the produced value, the next state, and
whether a refresh fetch was issued; `none` is the panic on a failed refresh
fetch. -/
def randInt (prng : Int → Nat → Int) (fetchRes : GetResult) (now : Int)
    (r : Rand) : Option (Int × Rand × Bool) :=
  if r.update ∧ now > r.updateTime + 60 then
    match fetchRes with
    | .success rec =>
      let r' := setSeed (seedOfRecord rec) { r with updateTime := rec.TimeStamp }
      some (prng r'.seed r'.consumed, { r' with consumed := r'.consumed + 1 }, true)
    | .failure _ _ => none
    | .panicked => none
  else
    some (prng r.seed r.consumed, { r with consumed := r.consumed + 1 }, false)

/-- A sequence of `Int()` calls: `times` gives `time.Now()` at each call,
`fetch k` the result of the `k`-th `LastRecord()` refresh fetch (indexed by
fetches issued so far, `fetched`).  Produces the output values, the final
state and the total number of refresh fetches; `none` when some call
panicked. -/
def runRand (prng : Int → Nat → Int) (fetch : Nat → GetResult) :
    List Int → Rand → Nat → Option (List Int × Rand × Nat)
  | [], r, fetched => some ([], r, fetched)
  | now :: rest, r, fetched =>
    match randInt prng (fetch fetched) now r with
    | none => none
    | some (v, r', did) =>
      match runRand prng fetch rest r' (if did then fetched + 1 else fetched) with
      | none => none
      | some (vs, rf, cf) => some (v :: vs, rf, cf)

/-- The output stream of Go's deterministic engine: `engineOuts prng s k n`
are the next `n` values of an engine seeded with `s` that has already
produced `k` values (`prng s j` being the `j`-th value from seed `s`). -/
def engineOuts (prng : Int → Nat → Int) (s : Int) : Nat → Nat → List Int
  | _, 0 => []
  | k, n + 1 => prng s k :: engineOuts prng s (k + 1) n

/-! ## Concrete sample inputs (used to instantiate the theorems) -/

/-- A well-formed `dirtyrecord`: every hex field decodes. -/
def sampleDirty : DirtyRecord :=
  { Version := "Version 1.0", Frequency := "60", TimeStamp := "100",
    SeedValue := "ab", PreviousOutputValue := "cd", SignatureValue := "1122",
    OutputValue := "ee", StatusCode := "0" }

/-- `sampleDirty` with an `outputValue` that is not valid hex. -/
def badOutputDirty : DirtyRecord := { sampleDirty with OutputValue := "zz" }

/-- The `Record` the pipeline produces from `badOutputDirty`: note the
sentinel `OutputValue = -1`. -/
def badOutputRecord : Record :=
  { Version := "Version 1.0", Frequency := 60, TimeStamp := 100,
    SeedValue := 171, PreviousOutputValue := 205, SignatureValue := 4386,
    OutputValue := -1 }

/-- `sampleDirty` with an empty `signatureValue` (hex-decodes to zero
bytes). -/
def emptySigDirty : DirtyRecord := { sampleDirty with SignatureValue := "" }

/-- A concrete verified record with timestamp 0. -/
def recAt0 : Record :=
  { Version := "v", Frequency := 60, TimeStamp := 0, SeedValue := 0,
    PreviousOutputValue := 0, SignatureValue := 0, OutputValue := 0 }

/-- The same record republished at timestamp 61. -/
def recAt61 : Record := { recAt0 with TimeStamp := 61 }

/-- A concrete engine output function (identically 0). -/
def prngZero : Int → Nat → Int := fun _ _ => 0

/-- A refresh-fetch oracle that always returns `recAt61`. -/
def fetchAt61 : Nat → GetResult := fun _ => .success recAt61

/-- A transport stub: every URL yields `sampleDirty` with the given
timestamp field. -/
def respWith (ts : String) : String → Except String DirtyRecord :=
  fun _ => .ok { sampleDirty with TimeStamp := ts }

/-! ## The swap loop reverses nonempty buffers -/

theorem getDset (l : List Nat) (a j v : Nat) :
    (l.set a v).getD j 0 = if a = j ∧ a < l.length then v else l.getD j 0 := by
  rw [List.getD_eq_getElem?_getD, List.getD_eq_getElem?_getD, List.getElem?_set]
  by_cases h1 : a = j
  · subst h1
    by_cases h2 : a < l.length
    · simp [h2]
    · simp [h2, List.getElem?_eq_none (Nat.le_of_not_lt h2)]
  · simp [h1]

theorem swapRun_reverse_aux (l : List Nat) (hl : 1 ≤ l.length) :
    ∀ (k i : Nat) (c : List Nat), c.length = l.length →
      i + k = (l.length - 1) / 2 + 1 →
      (∀ j, j < l.length → c.getD j 0 =
        if j < i ∨ l.length - 1 - j < i then l.getD (l.length - 1 - j) 0
        else l.getD j 0) →
      swapRun ((l.length : Int) - 1) k (i : Int) c = some l.reverse := by
  intro k
  induction k with
  | zero =>
    intro i c hc hik hinv
    have hi : i = (l.length - 1) / 2 + 1 := by omega
    simp only [swapRun]
    congr 1
    apply List.ext_getElem (by simp [hc])
    intro j h₁ h₂
    have hj : j < l.length := by simpa [hc] using h₁
    have hcond : j < i ∨ l.length - 1 - j < i := by omega
    have := hinv j hj
    rw [if_pos hcond] at this
    rw [← List.getD_eq_getElem c 0 h₁, this, List.getElem_reverse,
      List.getD_eq_getElem l 0 (by omega)]
  | succ k ih =>
    intro i c hc hik hinv
    have hi : i ≤ (l.length - 1) / 2 := by omega
    have hin : i < l.length := by omega
    have hmn : l.length - 1 - i < l.length := by omega
    have him : i ≤ l.length - 1 - i := by omega
    have hcond : (0 : Int) ≤ (i : Int) ∧ (i : Int) < (c.length : Int) ∧
        (0 : Int) ≤ (l.length : Int) - 1 - (i : Int) ∧
        (l.length : Int) - 1 - (i : Int) < (c.length : Int) := by omega
    have hiN : ((i : Int)).toNat = i := by omega
    have hmN : ((l.length : Int) - 1 - (i : Int)).toNat = l.length - 1 - i := by
      omega
    have hsw : swapAt c (i : Int) ((l.length : Int) - 1 - (i : Int)) =
        some ((c.set i (c.getD (l.length - 1 - i) 0)).set (l.length - 1 - i)
          (c.getD i 0)) := by
      simp only [swapAt]
      rw [if_pos hcond, hiN, hmN]
    simp only [swapRun]
    rw [hsw]
    show swapRun ((l.length : Int) - 1) k ((i : Int) + 1)
      ((c.set i (c.getD (l.length - 1 - i) 0)).set (l.length - 1 - i)
        (c.getD i 0)) = some l.reverse
    have hvi : c.getD i 0 = l.getD i 0 := by
      have := hinv i hin
      rwa [if_neg (by omega)] at this
    have hvm : c.getD (l.length - 1 - i) 0 = l.getD (l.length - 1 - i) 0 := by
      have := hinv (l.length - 1 - i) hmn
      have htrans : l.length - 1 - (l.length - 1 - i) = i := by omega
      rwa [if_neg (by omega)] at this
    have hcast : ((i : Int)) + 1 = ((i + 1 : Nat) : Int) := by push_cast; ring
    rw [hcast]
    apply ih (i + 1) _ (by simp [hc]) (by omega)
    intro j hj
    rw [getDset, getDset]
    simp only [List.length_set, hc]
    by_cases hjm : l.length - 1 - i = j
    · rw [if_pos ⟨hjm, by omega⟩, hvi, if_pos (by omega)]
      congr 1
      omega
    · rw [if_neg (by tauto)]
      by_cases hji : i = j
      · rw [if_pos ⟨hji, by omega⟩, hvm, if_pos (by omega)]
        congr 1
        omega
      · rw [if_neg (by tauto)]
        have := hinv j hj
        rw [this]
        by_cases hcnd : j < i ∨ l.length - 1 - j < i
        · rw [if_pos hcnd, if_pos (by omega)]
        · rw [if_neg hcnd, if_neg (by omega)]

/-- For a nonempty buffer, the in-place swap loop returns exactly the
reversal. -/
theorem sigSwap_reverse (sig : List Nat) (h : 1 ≤ sig.length) :
    sigSwap sig = some sig.reverse := by
  show swapRun ((sig.length : Int) - 1)
    (Int.tdiv ((sig.length : Int) - 1) 2 + 1).toNat 0 sig = some sig.reverse
  have hlim : ((sig.length : Int) - 1) = ((sig.length - 1 : Nat) : Int) := by
    omega
  have hcnt : (Int.tdiv ((sig.length : Int) - 1) 2 + 1).toNat
      = (sig.length - 1) / 2 + 1 := by
    rw [hlim]
    have ht : Int.tdiv ((sig.length - 1 : Nat) : Int) 2
        = (((sig.length - 1) / 2 : Nat) : Int) := rfl
    rw [ht]
    omega
  rw [hcnt]
  exact swapRun_reverse_aux sig h ((sig.length - 1) / 2 + 1) 0 sig rfl
    (by omega) (fun j hj => by rw [if_neg (by omega)])

/-! ## Helper lemmas on the fetch pipeline (shared by several claims) -/

theorem getRecordPipeline_success_inv (validate : List Nat → List Nat → Bool)
    (now : Int) (d : DirtyRecord) (r : Record)
    (h : getRecordPipeline validate now d = GetResult.success r) :
    ∃ data sig, verificationData d = Except.ok (data, sig) ∧
      validate data sig = true ∧ r = normalizeRecord d ∧
      now - r.TimeStamp ≤ 60 := by
  unfold getRecordPipeline at h
  cases hvd : verificationData d with
  | error e =>
    cases e <;> rw [hvd] at h <;> exact absurd h (by simp)
  | ok p =>
    obtain ⟨data, sig⟩ := p
    rw [hvd] at h
    simp only at h
    by_cases hval : validate data sig
    · rw [if_pos hval] at h
      by_cases hst : now - (normalizeRecord d).TimeStamp > 60
      · rw [if_pos hst] at h
        exact absurd h (by simp)
      · rw [if_neg hst] at h
        cases h
        exact ⟨data, sig, rfl, hval, rfl, by omega⟩
    · rw [if_neg hval] at h
      exact absurd h (by simp)

theorem getRecordPipeline_invalid_sig (validate : List Nat → List Nat → Bool)
    (now : Int) (d : DirtyRecord) (data sig : List Nat)
    (hvd : verificationData d = Except.ok (data, sig))
    (hval : validate data sig = false) :
    getRecordPipeline validate now d =
      GetResult.failure zeroRecord "Unable to validate beacon signature" := by
  unfold getRecordPipeline
  rw [hvd]
  simp only
  rw [if_neg (by simp [hval])]

theorem getRecordPipeline_stale (validate : List Nat → List Nat → Bool)
    (now : Int) (d : DirtyRecord) (data sig : List Nat)
    (hvd : verificationData d = Except.ok (data, sig))
    (hval : validate data sig = true)
    (hst : now - atoi d.TimeStamp > 60) :
    getRecordPipeline validate now d =
      GetResult.failure zeroRecord "Beacon is stale" := by
  unfold getRecordPipeline
  rw [hvd]
  simp only
  rw [if_pos (by simp [hval]),
    if_pos (show now - (normalizeRecord d).TimeStamp > 60 from hst)]

theorem getRecord_stale (resp : String → Except String DirtyRecord)
    (validate : List Nat → List Nat → Bool) (now : Int) (url : String)
    (d : DirtyRecord) (data sig : List Nat)
    (hresp : resp url = Except.ok d)
    (hvd : verificationData d = Except.ok (data, sig))
    (hval : validate data sig = true)
    (hst : now - atoi d.TimeStamp > 60) :
    getRecord resp validate now url =
      GetResult.failure zeroRecord "Beacon is stale" := by
  unfold getRecord
  rw [hresp]
  exact getRecordPipeline_stale validate now d data sig hvd hval hst

/-! ## Claim theorems -/

/-- C1: the signed payload `VerificationData` actually returns.  The claim
says it contains the frequency, timestamp and status code as big-endian
integers; but those fields are `string`s, on which `binary.Write` writes
nothing (and its error is discarded), so the payload is exactly
version-bytes ++ seed-bytes ++ previous-output-bytes.  Evaluated at a
concrete record (`frequency "60"`, `timeStamp "100"`, `statusCode "0"`): no
encoding of 60, 100 or 0 appears in the payload. -/
theorem c1_payload_omits_integer_fields :
    binWriteGoString sampleDirty.Frequency = [] ∧
    binWriteGoString sampleDirty.TimeStamp = [] ∧
    binWriteGoString sampleDirty.StatusCode = [] ∧
    verificationData sampleDirty =
      Except.ok (strBytes sampleDirty.Version ++ [171] ++ [205], [34, 17]) ∧
    strBytes sampleDirty.Version =
      [86, 101, 114, 115, 105, 111, 110, 32, 49, 46, 48] :=
  ⟨rfl, rfl, rfl, rfl, rfl⟩

/-- C2: a `Record` is returned with `nil` error only when its raw data passed
signature validation (abstracted as `validate`, standing for
`ValidateSignature` against the embedded certificate) and the freshness
check; when validation or freshness fails, the zero `Record` plus an error is
returned, so no unverified `Record` is ever exposed. -/
theorem c2_no_unverified_record_exposed
    (resp : String → Except String DirtyRecord)
    (validate : List Nat → List Nat → Bool) (now : Int) (url : String) :
    (∀ r, getRecord resp validate now url = GetResult.success r →
      ∃ d data sig, resp url = Except.ok d ∧ r = normalizeRecord d ∧
        verificationData d = Except.ok (data, sig) ∧
        validate data sig = true ∧ now - r.TimeStamp ≤ 60) ∧
    (∀ d data sig, resp url = Except.ok d →
      verificationData d = Except.ok (data, sig) → validate data sig = false →
      getRecord resp validate now url =
        GetResult.failure zeroRecord "Unable to validate beacon signature") ∧
    (∀ d data sig, resp url = Except.ok d →
      verificationData d = Except.ok (data, sig) → validate data sig = true →
      now - atoi d.TimeStamp > 60 →
      getRecord resp validate now url =
        GetResult.failure zeroRecord "Beacon is stale") := by
  refine ⟨?_, ?_, ?_⟩
  · intro r h
    unfold getRecord at h
    cases hresp : resp url with
    | error m => rw [hresp] at h; exact absurd h (by simp)
    | ok d =>
      rw [hresp] at h
      obtain ⟨data, sig, hvd, hval, hr, hts⟩ :=
        getRecordPipeline_success_inv validate now d r h
      exact ⟨d, data, sig, rfl, hr, hvd, hval, hts⟩
  · intro d data sig hresp hvd hval
    unfold getRecord
    rw [hresp]
    exact getRecordPipeline_invalid_sig validate now d data sig hvd hval
  · intro d data sig hresp hvd hval hst
    exact getRecord_stale resp validate now url d data sig hresp hvd hval hst

/-- C2 witness: a concrete transport whose record fails validation yields the
zero record and the signature error. -/
theorem c2_witness :
    getRecord (respWith "100") (fun _ _ => false) 100 lastRecordURL =
      GetResult.failure zeroRecord "Unable to validate beacon signature" :=
  (c2_no_unverified_record_exposed (respWith "100") (fun _ _ => false) 100
    lastRecordURL).2.1 { sampleDirty with TimeStamp := "100" }
    [86, 101, 114, 115, 105, 111, 110, 32, 49, 46, 48, 171, 205] [34, 17]
    rfl rfl rfl

/-- C3: a record whose timestamp is more than 60 seconds before `now` (once
it reaches the staleness check, i.e. extraction and validation passed) makes
`getRecord` return `"Beacon is stale"` with the zero record, and this rule is
the same in all five public lookups, including the historical ones. -/
theorem c3_staleness_uniform_in_all_lookups
    (resp : String → Except String DirtyRecord)
    (validate : List Nat → List Nat → Bool) (now t : Int) :
    (∀ d data sig, resp lastRecordURL = Except.ok d →
      verificationData d = Except.ok (data, sig) → validate data sig = true →
      now - atoi d.TimeStamp > 60 →
      lastRecord resp validate now =
        GetResult.failure zeroRecord "Beacon is stale") ∧
    (∀ d data sig, resp (currentRecordURL t) = Except.ok d →
      verificationData d = Except.ok (data, sig) → validate data sig = true →
      now - atoi d.TimeStamp > 60 →
      currentRecord resp validate now t =
        GetResult.failure zeroRecord "Beacon is stale") ∧
    (∀ d data sig, resp (previousRecordURL t) = Except.ok d →
      verificationData d = Except.ok (data, sig) → validate data sig = true →
      now - atoi d.TimeStamp > 60 →
      previousRecord resp validate now t =
        GetResult.failure zeroRecord "Beacon is stale") ∧
    (∀ d data sig, resp (nextRecordURL t) = Except.ok d →
      verificationData d = Except.ok (data, sig) → validate data sig = true →
      now - atoi d.TimeStamp > 60 →
      nextRecord resp validate now t =
        GetResult.failure zeroRecord "Beacon is stale") ∧
    (∀ d data sig, resp (startChainRecordURL t) = Except.ok d →
      verificationData d = Except.ok (data, sig) → validate data sig = true →
      now - atoi d.TimeStamp > 60 →
      startChainRecord resp validate now t =
        GetResult.failure zeroRecord "Beacon is stale") :=
  ⟨fun d data sig h1 h2 h3 h4 =>
      getRecord_stale resp validate now lastRecordURL d data sig h1 h2 h3 h4,
    fun d data sig h1 h2 h3 h4 =>
      getRecord_stale resp validate now (currentRecordURL t) d data sig h1 h2
        h3 h4,
    fun d data sig h1 h2 h3 h4 =>
      getRecord_stale resp validate now (previousRecordURL t) d data sig h1 h2
        h3 h4,
    fun d data sig h1 h2 h3 h4 =>
      getRecord_stale resp validate now (nextRecordURL t) d data sig h1 h2
        h3 h4,
    fun d data sig h1 h2 h3 h4 =>
      getRecord_stale resp validate now (startChainRecordURL t) d data sig h1
        h2 h3 h4⟩

/-- C3 witness: a concrete stale record (timestamp 0, now 100) is rejected as
stale by each of the five lookups. -/
theorem c3_witness :
    lastRecord (respWith "0") (fun _ _ => true) 100 =
      GetResult.failure zeroRecord "Beacon is stale" ∧
    currentRecord (respWith "0") (fun _ _ => true) 100 7 =
      GetResult.failure zeroRecord "Beacon is stale" ∧
    previousRecord (respWith "0") (fun _ _ => true) 100 7 =
      GetResult.failure zeroRecord "Beacon is stale" ∧
    nextRecord (respWith "0") (fun _ _ => true) 100 7 =
      GetResult.failure zeroRecord "Beacon is stale" ∧
    startChainRecord (respWith "0") (fun _ _ => true) 100 7 =
      GetResult.failure zeroRecord "Beacon is stale" := by
  obtain ⟨h1, h2, h3, h4, h5⟩ :=
    c3_staleness_uniform_in_all_lookups (respWith "0") (fun _ _ => true) 100 7
  refine ⟨h1 _ _ _ rfl rfl rfl (by decide), h2 _ _ _ rfl rfl rfl (by decide),
    h3 _ _ _ rfl rfl rfl (by decide), h4 _ _ _ rfl rfl rfl (by decide),
    h5 _ _ _ rfl rfl rfl (by decide)⟩

/-- C4 counterexample: a `signatureValue` of `""` hex-decodes to a buffer of
length 0, for which the loop runs one iteration (`(-1)/2 = 0` in Go) and
indexes `signature[-1]`: a panic, not the empty reversal. -/
theorem c4_counterexample_empty_buffer :
    hexDecode emptySigDirty.SignatureValue.data = some [] ∧
    sigSwap [] = none ∧
    verificationData emptySigDirty = Except.error VDErr.panicked :=
  ⟨rfl, rfl, rfl⟩

/-- C4 (amended): for every RawRecord whose signatureValue hex-decodes to a
buffer of length n ≥ 1, the swap loop produces exactly the reversal (element
i of the result is element n-1-i of the input), for even and odd n alike; at
n = 0 the loop panics with an index out of range. -/
theorem c4_swap_loop_reverses (d : DirtyRecord) (sig : List Nat)
    (hd : hexDecode d.SignatureValue.data = some sig) (hn : 1 ≤ sig.length) :
    sigSwap sig = some sig.reverse ∧
    ∀ i, i < sig.length →
      sig.reverse.getD i 0 = sig.getD (sig.length - 1 - i) 0 := by
  refine ⟨sigSwap_reverse sig hn, ?_⟩
  intro i hi
  rw [List.getD_eq_getElem _ _ (by simpa using hi), List.getElem_reverse,
    List.getD_eq_getElem _ _ (by omega)]

/-- C4 witness: the two-byte signature of `sampleDirty` is reversed. -/
theorem c4_witness :
    sigSwap [17, 34] = some ([17, 34] : List Nat).reverse :=
  (c4_swap_loop_reverses sampleDirty [17, 34] rfl (by decide)).1

/-- C5 counterexample: a RawRecord whose `outputValue` is not valid hex is
not rejected: `VerificationData` never decodes `outputValue`, so extraction
succeeds and (with a passing signature and fresh timestamp) the pipeline
returns a `Record`, with `OutputValue` silently normalized to the sentinel
-1. -/
theorem c5_counterexample_outputValue :
    verificationData badOutputDirty =
      Except.ok ([86, 101, 114, 115, 105, 111, 110, 32, 49, 46, 48, 171, 205],
        [34, 17]) ∧
    getRecordPipeline (fun _ _ => true) 100 badOutputDirty =
      GetResult.success badOutputRecord :=
  ⟨rfl, rfl⟩

/-- C5 (amended): a hex-decode failure of `signatureValue`, or of `seedValue`
or `previousOutputValue` once the earlier steps went through, makes the
pipeline return the zero record with the verification-data extraction error;
`outputValue` is exempt because `VerificationData` never hex-decodes it. -/
theorem c5_hex_failure_is_verification_error
    (validate : List Nat → List Nat → Bool) (now : Int) (d : DirtyRecord) :
    (verificationData d = Except.error VDErr.hexErr →
      getRecordPipeline validate now d =
        GetResult.failure zeroRecord "Unable to extract verification data") ∧
    (hexDecode d.SignatureValue.data = none →
      verificationData d = Except.error VDErr.hexErr) ∧
    (∀ sig sig', hexDecode d.SignatureValue.data = some sig →
      sigSwap sig = some sig' → hexDecode d.SeedValue.data = none →
      verificationData d = Except.error VDErr.hexErr) ∧
    (∀ sig sig' seed, hexDecode d.SignatureValue.data = some sig →
      sigSwap sig = some sig' → hexDecode d.SeedValue.data = some seed →
      hexDecode d.PreviousOutputValue.data = none →
      verificationData d = Except.error VDErr.hexErr) := by
  refine ⟨?_, ?_, ?_, ?_⟩
  · intro h
    unfold getRecordPipeline
    rw [h]
  · intro h
    unfold verificationData
    rw [h]
  · intro sig sig' h1 h2 h3
    unfold verificationData
    simp only [h1, h2, h3]
  · intro sig sig' seed h1 h2 h3 h4
    unfold verificationData
    simp only [h1, h2, h3, h4]

/-- C5 witness: an invalid `seedValue` hex field is rejected with the
extraction error. -/
theorem c5_witness :
    getRecordPipeline (fun _ _ => true) 100
      { sampleDirty with SeedValue := "zz" } =
      GetResult.failure zeroRecord "Unable to extract verification data" :=
  (c5_hex_failure_is_verification_error (fun _ _ => true) 100
    { sampleDirty with SeedValue := "zz" }).1
    (((c5_hex_failure_is_verification_error (fun _ _ => true) 100
      { sampleDirty with SeedValue := "zz" }).2.2.1 [17, 34] [34, 17] rfl rfl
      rfl))

/-- C6: normalization is total.  `atoi` yields the parsed value exactly on
syntactically valid base-10 integers that fit Go's `int` (`strconv.Atoi`
reports a range error otherwise) and the sentinel -1 in every other case;
`setString(_, 16)` yields the parsed big integer on valid base-16 input and
the sentinel big integer -1 otherwise; neither has a failure path, and
normalization always builds the `Record` from exactly these two functions. -/
theorem c6_normalization_total (s : String) :
    (∀ v : Int, goParseInt s = some v → int64Min ≤ v → v ≤ int64Max →
      atoi s = v) ∧
    (goParseInt s = none → atoi s = -1) ∧
    (∀ v : Int, goParseInt s = some v → ¬(int64Min ≤ v ∧ v ≤ int64Max) →
      atoi s = -1) ∧
    (∀ v : Int, goParseHex16 s = some v → setString16 s = v) ∧
    (goParseHex16 s = none → setString16 s = -1) ∧
    (∀ d : DirtyRecord, normalizeRecord d =
      { Version := d.Version, Frequency := atoi d.Frequency,
        TimeStamp := atoi d.TimeStamp, SeedValue := setString16 d.SeedValue,
        PreviousOutputValue := setString16 d.PreviousOutputValue,
        SignatureValue := setString16 d.SignatureValue,
        OutputValue := setString16 d.OutputValue }) := by
  refine ⟨?_, ?_, ?_, ?_, ?_, fun d => rfl⟩
  · intro v h h1 h2
    unfold atoi
    rw [h]
    show (if int64Min ≤ v ∧ v ≤ int64Max then v else -1) = v
    rw [if_pos ⟨h1, h2⟩]
  · intro h
    unfold atoi
    rw [h]
  · intro v h h12
    unfold atoi
    rw [h]
    show (if int64Min ≤ v ∧ v ≤ int64Max then v else -1) = -1
    rw [if_neg h12]
  · intro v h
    unfold setString16
    rw [h]
  · intro h
    unfold setString16
    rw [h]

/-- C6 witness: concrete parses — a valid decimal, an overflowing decimal,
and a valid hex string. -/
theorem c6_witness :
    atoi "60" = 60 ∧ atoi "9223372036854775808" = -1 ∧
    setString16 "ff" = 255 := by
  refine ⟨(c6_normalization_total "60").1 60 rfl (by decide) (by decide),
    (c6_normalization_total "9223372036854775808").2.2.1 9223372036854775808
      rfl (by decide),
    (c6_normalization_total "ff").2.2.2.1 255 rfl⟩

/-- C7: the engine seed `NewRand(r)` passes to `SetSeed` is
`r.SeedValue >> 448` truncated to a 64-bit signed integer; for a 512-bit
(nonnegative) seed value this keeps exactly the most-significant 64 bits —
the seed read as an unsigned 64-bit word is `SeedValue / 2^448`, and any two
seed values agreeing on those top bits give the same engine seed. -/
theorem c7_newRand_seed_msb64 (r : Record) (h0 : 0 ≤ r.SeedValue)
    (h512 : r.SeedValue < 2 ^ 512) :
    (newRand r).seed = toInt64 (goRsh r.SeedValue 448) ∧
    (newRand r).seed % 2 ^ 64 = r.SeedValue / 2 ^ 448 ∧
    ∀ r' : Record, r.SeedValue / 2 ^ 448 = r'.SeedValue / 2 ^ 448 →
      (newRand r).seed = (newRand r').seed := by
  have hq0 : 0 ≤ r.SeedValue / 2 ^ 448 :=
    Int.ediv_nonneg h0 (by positivity)
  have hq1 : r.SeedValue / 2 ^ 448 < 2 ^ 64 := by
    rw [Int.ediv_lt_iff_lt_mul (by positivity)]
    calc r.SeedValue < 2 ^ 512 := h512
      _ ≤ 2 ^ 64 * 2 ^ 448 := by norm_num
  refine ⟨rfl, ?_, ?_⟩
  · show toInt64 (goRsh r.SeedValue 448) % 2 ^ 64 = r.SeedValue / 2 ^ 448
    unfold toInt64 goRsh
    rw [Int.fdiv_eq_ediv _ (by positivity)]
    generalize r.SeedValue / 2 ^ 448 = q at hq0 hq1 ⊢
    omega
  · intro r' hq
    show toInt64 (goRsh r.SeedValue 448) = toInt64 (goRsh r'.SeedValue 448)
    unfold goRsh
    rw [Int.fdiv_eq_ediv _ (by positivity), Int.fdiv_eq_ediv _ (by positivity),
      hq]

/-- C7 witness: a seed value of `2^511 + 3` keeps its top 64 bits `2^63`
(read unsigned). -/
theorem c7_witness :
    (newRand { recAt0 with SeedValue := 2 ^ 511 + 3 }).seed % 2 ^ 64 =
      (2 ^ 511 + 3) / 2 ^ 448 :=
  (c7_newRand_seed_msb64 { recAt0 with SeedValue := 2 ^ 511 + 3 }
    (by positivity) (by norm_num)).2.1

/-! ## Helper lemmas on generator runs -/

/-- With auto-update off, one `Int()` call is the pure engine step. -/
theorem randInt_no_update (prng : Int → Nat → Int) (fr : GetResult)
    (now : Int) (r : Rand) (h : r.update = false) :
    randInt prng fr now r =
      some (prng r.seed r.consumed, { r with consumed := r.consumed + 1 },
        false) := by
  unfold randInt
  rw [if_neg (by simp [h])]

/-- With auto-update off, a whole run is the pure engine stream: no call
fetches, the state just advances `consumed`, and the outputs are a function
of the seed alone. -/
theorem runRand_pure (prng : Int → Nat → Int) (fetch : Nat → GetResult) :
    ∀ (times : List Int) (r : Rand) (c : Nat), r.update = false →
      runRand prng fetch times r c =
        some (engineOuts prng r.seed r.consumed times.length,
          { r with consumed := r.consumed + times.length }, c) := by
  intro times
  induction times with
  | nil =>
    intro r c h
    simp [runRand, engineOuts]
  | cons now rest ih =>
    intro r c h
    have hstep := randInt_no_update prng (fetch c) now r h
    simp only [runRand, hstep]
    have hif : (if (false : Bool) = true then c + 1 else c) = c := by simp
    rw [hif, ih { r with consumed := r.consumed + 1 } c h,
      show r.consumed + 1 + rest.length = r.consumed + (rest.length + 1) from
        by omega]
    rfl

/-- A refresh fetch leaves the generator with auto-update off. -/
theorem randInt_fetch_clears_update (prng : Int → Nat → Int)
    (fr : GetResult) (now : Int) (r r' : Rand) (v : Int)
    (h : randInt prng fr now r = some (v, r', true)) : r'.update = false := by
  unfold randInt at h
  by_cases hc : r.update = true ∧ now > r.updateTime + 60
  · rw [if_pos (by simp [hc.1, hc.2])] at h
    cases fr with
    | success rec => cases h; rfl
    | failure r0 m => exact absurd h (by simp)
    | panicked => exact absurd h (by simp)
  · rw [if_neg (by simpa using hc)] at h
    cases h

/-- Over any run, the number of refresh fetches grows by at most one. -/
theorem runRand_fetch_le (prng : Int → Nat → Int) (fetch : Nat → GetResult) :
    ∀ (times : List Int) (r : Rand) (c : Nat)
      (out : List Int × Rand × Nat),
      runRand prng fetch times r c = some out → out.2.2 ≤ c + 1 := by
  intro times
  induction times with
  | nil =>
    intro r c out h
    simp only [runRand] at h
    cases h
    show c ≤ c + 1
    omega
  | cons now rest ih =>
    intro r c out h
    simp only [runRand] at h
    cases hri : randInt prng (fetch c) now r with
    | none => rw [hri] at h; exact absurd h (by simp)
    | some t =>
      obtain ⟨v, r', did⟩ := t
      rw [hri] at h
      simp only at h
      cases hrest : runRand prng fetch rest r' (if did then c + 1 else c) with
      | none => rw [hrest] at h; exact absurd h (by simp)
      | some out' =>
        rw [hrest] at h
        obtain ⟨vs, rf, cf⟩ := out'
        cases h
        cases did with
        | false =>
          have := ih r' c (vs, rf, cf) (by simpa using hrest)
          simpa using this
        | true =>
          have hupd : r'.update = false :=
            randInt_fetch_clears_update prng (fetch c) now r r' v hri
          rw [if_pos rfl] at hrest
          rw [runRand_pure prng fetch rest r' (c + 1) hupd] at hrest
          cases hrest
          simp

/-! ## Generator claims -/

/-- C8: seeding is deterministic — two generators built by `NewRand` from the
same record produce the same output sequence over any equally long series of
`Int()` calls, whatever the wall-clock times of the calls and whatever any
fetch oracle would have answered (auto-update is off, so neither is
consulted): both runs equal the pure engine stream from the record's seed. -/
theorem c8_newRand_deterministic (prng : Int → Nat → Int)
    (fetch₁ fetch₂ : Nat → GetResult) (times₁ times₂ : List Int)
    (rec : Record) (hlen : times₁.length = times₂.length) :
    runRand prng fetch₁ times₁ (newRand rec) 0 =
      some (engineOuts prng (seedOfRecord rec) 0 times₁.length,
        { update := false, updateTime := -62135596800,
          seed := seedOfRecord rec, consumed := times₁.length }, 0) ∧
    runRand prng fetch₂ times₂ (newRand rec) 0 =
      some (engineOuts prng (seedOfRecord rec) 0 times₁.length,
        { update := false, updateTime := -62135596800,
          seed := seedOfRecord rec, consumed := times₁.length }, 0) := by
  constructor
  · rw [runRand_pure prng fetch₁ times₁ (newRand rec) 0 rfl]
    simp [newRand, setSeed]
  · rw [runRand_pure prng fetch₂ times₂ (newRand rec) 0 rfl, ← hlen]
    simp [newRand, setSeed]

/-- C8 witness: two three-call runs at different times with different fetch
oracles produce the same outputs. -/
theorem c8_witness :
    runRand prngZero fetchAt61 [1, 2, 3] (newRand recAt0) 0 =
      some (engineOuts prngZero (seedOfRecord recAt0) 0 3,
        { update := false, updateTime := -62135596800,
          seed := seedOfRecord recAt0, consumed := 3 }, 0) ∧
    runRand prngZero (fun _ => GetResult.panicked) [70, 200, 500]
      (newRand recAt0) 0 =
      some (engineOuts prngZero (seedOfRecord recAt0) 0 3,
        { update := false, updateTime := -62135596800,
          seed := seedOfRecord recAt0, consumed := 3 }, 0) :=
  c8_newRand_deterministic prngZero fetchAt61 (fun _ => GetResult.panicked)
    [1, 2, 3] [70, 200, 500] recAt0 rfl

/-- C9: evaluation of an auto-updating generator on a two-call trace.  The
generator is seeded from a record with timestamp 0; the first `Int()` call at
t = 61 (past the one-minute window) issues a refresh fetch returning a record
with timestamp 61, but the `SetSeed` inside that refresh clears the update
flag, so the second call at t = 200 — past the next window (200 > 61 + 60) —
issues no fetch: the total fetch count stays 1, while the claim requires a
second refresh. -/
theorem c9_no_refresh_after_first :
    newUpdatedRand recAt0 =
      { update := true, updateTime := 0, seed := 0, consumed := 0 } ∧
    runRand prngZero fetchAt61 [61, 200] (newUpdatedRand recAt0) 0 =
      some ([0, 0],
        { update := false, updateTime := 61, seed := 0, consumed := 2 }, 1) ∧
    (61 : Int) > recAt0.TimeStamp + 60 ∧
    (200 : Int) > recAt61.TimeStamp + 60 := by
  refine ⟨rfl, ?_, by decide, by decide⟩
  rfl

/-- C10: `SetSeed` always turns auto-update off — also when `Int()` itself
calls it during a refresh — hence a `NewUpdatedRand` generator performs at
most one refresh fetch over any lifetime of `Int()` calls, and a `NewRand`
generator never fetches. -/
theorem c10_setSeed_disables_autoupdate :
    (∀ (n : Int) (r : Rand), (setSeed n r).update = false) ∧
    (∀ (prng : Int → Nat → Int) (fetch : Nat → GetResult)
      (times : List Int) (rec : Record) (out : List Int × Rand × Nat),
      runRand prng fetch times (newUpdatedRand rec) 0 = some out →
      out.2.2 ≤ 1) ∧
    (∀ (prng : Int → Nat → Int) (fetch : Nat → GetResult)
      (times : List Int) (r : Record) (out : List Int × Rand × Nat),
      runRand prng fetch times (newRand r) 0 = some out → out.2.2 = 0) := by
  refine ⟨fun n r => rfl, ?_, ?_⟩
  · intro prng fetch times rec out h
    simpa using runRand_fetch_le prng fetch times (newUpdatedRand rec) 0 out h
  · intro prng fetch times r out h
    rw [runRand_pure prng fetch times (newRand r) 0 rfl] at h
    cases h
    rfl

/-- C10 witness: a `NewUpdatedRand` generator driven across two windows
fetches once (≤ 1), and a `NewRand` generator driven across the same times
fetches zero times. -/
theorem c10_witness :
    (([0, 0],
      { update := false, updateTime := 61, seed := 0, consumed := 2 }, 1) :
        List Int × Rand × Nat).2.2 ≤ 1 ∧
    (([0, 0],
      { update := false, updateTime := -62135596800, seed := 0,
        consumed := 2 }, 0) : List Int × Rand × Nat).2.2 = 0 :=
  ⟨c10_setSeed_disables_autoupdate.2.1 prngZero fetchAt61 [61, 200] recAt0 _
      rfl,
    c10_setSeed_disables_autoupdate.2.2 prngZero fetchAt61 [61, 200] recAt0 _
      rfl⟩

end Beacon
